import Mathlib

/-!
Verification development for the ESahayak lead-management service.

The definitions below are a shallow embedding of the TypeScript source:
the zod validation schemas (src/lib/validations/buyer.ts), the in-memory
rate limiter (src/lib/rate-limit.ts), and the API route handlers for
buyers (list/create, detail GET/PUT/DELETE, CSV import, CSV export).
Machine integers are modelled as Int (JavaScript numbers in this code are
exact small integers), epoch timestamps as Int milliseconds, JSON values
by the JVal type, and the fallible route handlers by explicit result
types.  Library functions from outside the repository (zod string checks,
papaparse, Date.toISOString) are modelled by small executable functions
noted at their definition sites.
-/

namespace ESahayak

/-- JSON values as they occur in this service: null, strings, numbers,
booleans and arrays of strings (the only arrays in the data model are tag
lists).  JSON.parse never produces a Date object, which matters for the
updatedAt field of the update schema. -/
inductive JVal where
  | null
  | str (s : String)
  | num (n : Int)
  | jbool (b : Bool)
  | arrStr (xs : List String)
deriving DecidableEq, Repr

/-! String helpers.  The string functions of this development recurse
over character lists, so every definition evaluates by kernel reduction
on concrete inputs (the position-based core string functions do not). -/

/-- Trim of leading and trailing whitespace, the model of the JavaScript
and zod trim. -/
def jsTrim (s : String) : String :=
  String.mk (((s.toList.dropWhile Char.isWhitespace).reverse.dropWhile Char.isWhitespace).reverse)

/-- Split of a character list at every occurrence of a separator
character, keeping empty pieces. -/
def splitCharsOn (sep : Char) : List Char → List (List Char)
  | [] => [[]]
  | c :: cs =>
      let rest := splitCharsOn sep cs
      if c = sep then [] :: rest
      else
        match rest with
        | [] => [[c]]
        | g :: gs => (c :: g) :: gs

/-- Split of a string on a separator character, the model of the
JavaScript split for the one-character separators this code uses. -/
def splitOnChar (sep : Char) (s : String) : List String :=
  (splitCharsOn sep s.toList).map String.mk

/-- Join of strings with a separator. -/
def joinWith (sep : String) (xs : List String) : String :=
  String.mk (List.intercalate sep.toList (xs.map String.toList))

/-- Character-wise lower casing. -/
def lowerStr (s : String) : String :=
  String.mk (s.toList.map Char.toLower)

/-- Escape of the characters of a JSON string literal (quote and
backslash only; the strings in this development contain no control
characters). -/
def escapeChars : List Char → List Char
  | [] => []
  | c :: cs =>
      (if c = '"' then ['\\', '"'] else if c = '\\' then ['\\', '\\'] else [c]) ++ escapeChars cs

/-- A JSON string literal with quotes and escapes. -/
def quoteJson (s : String) : String :=
  String.mk ('"' :: (escapeChars s.toList ++ ['"']))

/-- Model of JSON.stringify for the values of JVal, used by the update
handler to compare array fields by serialized equality. -/
def jsonStringify : JVal → String
  | .null => "null"
  | .str s => quoteJson s
  | .num n => toString n
  | .jbool b => if b then "true" else "false"
  | .arrStr xs => "[" ++ joinWith "," (xs.map quoteJson) ++ "]"

/-- One zod validation issue: the first path segment (the field name) and
the message. -/
structure Issue where
  field : String
  message : String
deriving DecidableEq, Repr

/-- JavaScript or-with-default on a nullable string: the empty string and
an absent value are both falsy. -/
def jsOrString (v : Option String) (d : String) : String :=
  match v with
  | some s => if s = "" then d else s
  | none => d

/-- JavaScript truthiness of a possibly-absent number (absent and 0 are
falsy). -/
def jsTruthyInt (v : Option Int) : Bool :=
  match v with
  | some n => n ≠ 0
  | none => false

/-- JavaScript truthiness of a possibly-absent rational number. -/
def jsTruthyRat (v : Option Rat) : Bool :=
  match v with
  | some q => q ≠ 0
  | none => false

/-! Rate limiter, embedded from src/lib/rate-limit.ts.  The module keeps
one module-level Map shared by every RateLimiter instance; the store is
modelled as a function from keys to optional entries. -/

/-- Stored rate-limit entry: request count and window expiry (epoch ms). -/
structure RateLimitData where
  count : Nat
  resetTime : Int
deriving DecidableEq, Repr

/-- The module-level store (a single Map shared by all limiter
instances). -/
def Store : Type := String → Option RateLimitData

/-- The empty store. -/
def emptyStore : Store := fun _ => none

/-- Map.get. -/
def storeGet (s : Store) (k : String) : Option RateLimitData := s k

/-- Map.set. -/
def storeSet (s : Store) (k : String) (d : RateLimitData) : Store :=
  fun k' => if k' = k then some d else s k'

/-- RateLimiter.cleanup: delete every entry whose resetTime lies strictly
in the past. -/
def cleanup (now : Int) (s : Store) : Store :=
  fun k =>
    match s k with
    | some d => if now > d.resetTime then none else some d
    | none => none

/-- Result of RateLimiter.check. -/
structure CheckResult where
  allowed : Bool
  remaining : Int
  resetTime : Int
  total : Nat
deriving DecidableEq, Repr

/-- RateLimiter.check on an already-computed key: cleanup, then either
reset the entry (missing or expired), deny (count at the limit), or
increment. -/
def checkKey (maxRequests : Nat) (windowMs : Int) (key : String) (now : Int)
    (store : Store) : CheckResult × Store :=
  let store1 := cleanup now store
  match storeGet store1 key with
  | none =>
      let d : RateLimitData := ⟨1, now + windowMs⟩
      (⟨true, (maxRequests : Int) - 1, d.resetTime, maxRequests⟩, storeSet store1 key d)
  | some d =>
      if now > d.resetTime then
        let d' : RateLimitData := ⟨1, now + windowMs⟩
        (⟨true, (maxRequests : Int) - 1, d'.resetTime, maxRequests⟩, storeSet store1 key d')
      else if d.count ≥ maxRequests then
        (⟨false, 0, d.resetTime, maxRequests⟩, store1)
      else
        let d' : RateLimitData := ⟨d.count + 1, d.resetTime⟩
        (⟨true, (maxRequests : Int) - (d.count + 1 : Nat), d.resetTime, maxRequests⟩,
          storeSet store1 key d')

/-- The request headers the key generators read. -/
structure Request where
  xForwardedFor : Option String
  xRealIp : Option String
  xUserId : Option String
deriving DecidableEq, Repr

/-- RateLimiter.defaultKeyGenerator: forwarded IP (or real IP, or the
string unknown), a colon, and the optional user id header. -/
def defaultKeyGenerator (req : Request) : String :=
  let ip := jsOrString req.xForwardedFor (jsOrString req.xRealIp "unknown")
  let userId := jsOrString req.xUserId ""
  ip ++ ":" ++ userId

/-- A configured RateLimiter instance. -/
structure RateLimiter where
  maxRequests : Nat
  windowMs : Int
  keyGen : Request → String

/-- RateLimiter.check on a request: generate the key, then run the keyed
check against the shared store. -/
def RateLimiter.check (rl : RateLimiter) (req : Request) (now : Int)
    (store : Store) : CheckResult × Store :=
  checkKey rl.maxRequests rl.windowMs (rl.keyGen req) now store

/-- General API limiter: 100 requests per 15 minutes. -/
def apiRateLimiter : RateLimiter :=
  ⟨100, 15 * 60 * 1000, defaultKeyGenerator⟩

/-- Lead mutation limiter: 10 requests per minute. -/
def buyerMutationRateLimiter : RateLimiter :=
  ⟨10, 60 * 1000, defaultKeyGenerator⟩

/-- CSV import limiter: 3 requests per minute. -/
def csvImportRateLimiter : RateLimiter :=
  ⟨3, 60 * 1000, defaultKeyGenerator⟩

/-- Key generator of the auth limiter: the string auth followed by the
client IP, ignoring the user id. -/
def authKeyGenerator (req : Request) : String :=
  "auth:" ++ jsOrString req.xForwardedFor (jsOrString req.xRealIp "unknown")

/-- Authentication limiter: 5 requests per 15 minutes, keyed on IP. -/
def authRateLimiter : RateLimiter :=
  ⟨5, 15 * 60 * 1000, authKeyGenerator⟩

/-- A sequence of check calls against one limiter configuration and key,
at the given instants, threading the shared store. -/
def checkSeq (maxRequests : Nat) (windowMs : Int) (key : String) :
    List Int → Store → List CheckResult × Store
  | [], store => ([], store)
  | t :: ts, store =>
      let r := checkKey maxRequests windowMs key t store
      let rest := checkSeq maxRequests windowMs key ts r.2
      (r.1 :: rest.1, rest.2)

/-! Validation schemas, embedded from src/lib/validations/buyer.ts.
Enum schemas are modelled as membership in the literal value lists. -/

/-- Values of citySchema. -/
def cityValues : List String := ["Chandigarh", "Mohali", "Zirakpur", "Panchkula", "Other"]

/-- Values of propertyTypeSchema. -/
def propertyTypeValues : List String := ["Apartment", "Villa", "Plot", "Office", "Retail"]

/-- Values of bhkSchema. -/
def bhkValues : List String := ["1", "2", "3", "4", "Studio"]

/-- Values of purposeSchema. -/
def purposeValues : List String := ["Buy", "Rent"]

/-- Values of timelineSchema. -/
def timelineValues : List String := ["0-3m", "3-6m", ">6m", "Exploring"]

/-- Values of sourceSchema. -/
def sourceValues : List String := ["Website", "Referral", "Walk-in", "Call", "Other"]

/-- Values of statusSchema. -/
def statusValues : List String :=
  ["New", "Qualified", "Contacted", "Visited", "Negotiation", "Converted", "Dropped"]

/-- The phone regex of the source, anchored digits with length 10 to 15. -/
def phoneRegexTest (s : String) : Bool :=
  s.toList.all Char.isDigit && decide (10 ≤ s.length) && decide (s.length ≤ 15)

/-- Issues of phoneSchema: the regex check and the min and max length
checks all run and each failing check contributes one issue, with the
custom messages of the source. -/
def phoneIssues (phone : String) : List Issue :=
  (if phoneRegexTest phone then [] else [⟨"phone", "Phone must be 10-15 digits"⟩])
    ++ (if 10 ≤ phone.length then [] else [⟨"phone", "Phone must be at least 10 digits"⟩])
    ++ (if phone.length ≤ 15 then [] else [⟨"phone", "Phone must be at most 15 digits"⟩])

/-- Executable approximation of the zod email format check (a library
regex, not part of this repository): nonempty local part without spaces
or further at-signs, one at-sign, and a nonempty domain containing a dot
and no spaces.  No claim in this development depends on the fine points
of the email regex. -/
def isEmailLike (s : String) : Bool :=
  match splitOnChar '@' s with
  | [local_, domain] =>
      decide (0 < local_.length) && !(local_.toList.any (· = ' '))
        && decide (0 < domain.length) && domain.toList.any (· = '.')
        && !(domain.toList.any (· = ' '))
  | _ => false

/-- Issue list of an enum schema applied to a string. -/
def enumIssues (field : String) (values : List String) (s : String) : List Issue :=
  if s ∈ values then [] else [⟨field, "Invalid enum value"⟩]

/-- Issue list of an optional email-or-empty union field (string.email
optional or-literal empty): an absent or empty value passes, any other
string must look like an email; a union failure is a single issue. -/
def emailFieldIssues (v : Option String) : List Issue :=
  match v with
  | none => []
  | some s => if s = "" || isEmailLike s then [] else [⟨"email", "Invalid input"⟩]

/-- Issue list of the optional notes field (string.max 1000 optional
or-literal empty): a union failure is a single issue. -/
def notesFieldIssues (v : Option String) : List Issue :=
  match v with
  | none => []
  | some s => if s = "" || decide (s.length ≤ 1000) then [] else [⟨"notes", "Invalid input"⟩]

/-- Issue list of an optional positive-integer budget bound given as a
JSON number (modelled as a rational): the integer check and the
positivity check both run. -/
def budgetFieldIssues (field : String) (v : Option Rat) : List Issue :=
  match v with
  | none => []
  | some q =>
      (if q.den = 1 then [] else [⟨field, "Expected integer, received float"⟩])
        ++ (if 0 < q then [] else [⟨field, "Number must be greater than 0"⟩])

/-- A well-typed JSON body for buyer creation (the fields the zod object
of createBuyerSchema reads; absent optional fields are none). -/
structure CreateBody where
  fullName : String
  email : Option String
  phone : String
  city : String
  propertyType : String
  bhk : Option String
  purpose : String
  budgetMin : Option Rat
  budgetMax : Option Rat
  timeline : String
  source : String
  notes : Option String
  tags : Option (List String)
deriving DecidableEq, Repr

/-- Base object issues of createBuyerSchema, field by field in schema
order, with the custom messages of the source. -/
def createBuyerBaseIssues (b : CreateBody) : List Issue :=
  (if 2 ≤ b.fullName.length then [] else [⟨"fullName", "Full name must be at least 2 characters"⟩])
    ++ (if b.fullName.length ≤ 80 then [] else
        [⟨"fullName", "Full name must be at most 80 characters"⟩])
    ++ emailFieldIssues b.email
    ++ phoneIssues b.phone
    ++ enumIssues "city" cityValues b.city
    ++ enumIssues "propertyType" propertyTypeValues b.propertyType
    ++ (match b.bhk with
        | none => []
        | some s => enumIssues "bhk" bhkValues s)
    ++ enumIssues "purpose" purposeValues b.purpose
    ++ budgetFieldIssues "budgetMin" b.budgetMin
    ++ budgetFieldIssues "budgetMax" b.budgetMax
    ++ enumIssues "timeline" timelineValues b.timeline
    ++ enumIssues "source" sourceValues b.source
    ++ notesFieldIssues b.notes

/-- The bhk refinement: when propertyType is Apartment or Villa, the
parsed bhk value must be truthy (present). -/
def bhkRefineIssues (propertyType : String) (bhkPresent : Bool) : List Issue :=
  if (propertyType ∈ (["Apartment", "Villa"] : List String)) && !bhkPresent then
    [⟨"bhk", "BHK is required for Apartment and Villa"⟩]
  else []

/-- The budget refinement on parsed integer bounds: when both parsed
values are truthy, budgetMax must be at least budgetMin; the issue is
reported on the budgetMax path. -/
def budgetRefineIssues (bMin bMax : Option Int) : List Issue :=
  if jsTruthyInt bMin && jsTruthyInt bMax then
    match bMin, bMax with
    | some n, some m =>
        if m ≥ n then [] else
          [⟨"budgetMax", "Budget max must be greater than or equal to budget min"⟩]
    | _, _ => []
  else []

/-- Rational-to-integer reading of a budget bound that passed the base
checks (the denominator is 1 there). -/
def ratBudgetToInt (v : Option Rat) : Option Int :=
  match v with
  | none => none
  | some q => some q.num

/-- Full issue list of createBuyerSchema.parse: the refinements run only
when the base object parse produced no issue, and both refinements run. -/
def createBuyerIssues (b : CreateBody) : List Issue :=
  let base := createBuyerBaseIssues b
  if base = [] then
    bhkRefineIssues b.propertyType (match b.bhk with | some _ => true | none => false)
      ++ budgetRefineIssues (ratBudgetToInt b.budgetMin) (ratBudgetToInt b.budgetMax)
  else base

/-- A well-typed JSON body for buyer update: createBuyerSchema fields
plus optional status and optional updatedAt.  The updatedAt member holds
the raw JSON value of the request body, because the schema type there is
zod date, which accepts only Date instances and never a JSON value. -/
structure UpdateBody where
  fullName : String
  email : Option String
  phone : String
  city : String
  propertyType : String
  bhk : Option String
  purpose : String
  budgetMin : Option Rat
  budgetMax : Option Rat
  timeline : String
  source : String
  notes : Option String
  tags : Option (List String)
  status : Option String
  updatedAt : Option JVal
deriving DecidableEq, Repr

/-- Base object issues of updateBuyerSchema: the createBuyerSchema fields
followed by the optional status enum and the updatedAt date check.  A
present updatedAt is a JSON value, never a Date instance, so zod date
rejects it with an invalid-type issue. -/
def updateBuyerBaseIssues (b : UpdateBody) : List Issue :=
  (if 2 ≤ b.fullName.length then [] else [⟨"fullName", "Full name must be at least 2 characters"⟩])
    ++ (if b.fullName.length ≤ 80 then [] else
        [⟨"fullName", "Full name must be at most 80 characters"⟩])
    ++ emailFieldIssues b.email
    ++ phoneIssues b.phone
    ++ enumIssues "city" cityValues b.city
    ++ enumIssues "propertyType" propertyTypeValues b.propertyType
    ++ (match b.bhk with
        | none => []
        | some s => enumIssues "bhk" bhkValues s)
    ++ enumIssues "purpose" purposeValues b.purpose
    ++ budgetFieldIssues "budgetMin" b.budgetMin
    ++ budgetFieldIssues "budgetMax" b.budgetMax
    ++ enumIssues "timeline" timelineValues b.timeline
    ++ enumIssues "source" sourceValues b.source
    ++ notesFieldIssues b.notes
    ++ (match b.status with
        | none => []
        | some s => enumIssues "status" statusValues s)
    ++ (match b.updatedAt with
        | none => []
        | some _ => [⟨"updatedAt", "Expected date, received a JSON value"⟩])

/-- Full issue list of updateBuyerSchema.parse. -/
def updateBuyerIssues (b : UpdateBody) : List Issue :=
  let base := updateBuyerBaseIssues b
  if base = [] then
    bhkRefineIssues b.propertyType (match b.bhk with | some _ => true | none => false)
      ++ budgetRefineIssues (ratBudgetToInt b.budgetMin) (ratBudgetToInt b.budgetMax)
  else base

/-- Parsed output of updateBuyerSchema on a body that validated: the
fullName is trimmed, tags defaults to the empty list, and updatedAt is
the parsed date value.  Because zod date accepts no JSON value, a body
validates only when its updatedAt is absent, so the parsed updatedAt is
always none. -/
structure UpdateData where
  fullName : String
  email : Option String
  phone : String
  city : String
  propertyType : String
  bhk : Option String
  purpose : String
  budgetMin : Option Int
  budgetMax : Option Int
  timeline : String
  source : String
  notes : Option String
  tags : List String
  status : Option String
  updatedAt : Option Int
deriving DecidableEq, Repr

/-- The parsed update data of a body with no validation issue. -/
def parseUpdateData (b : UpdateBody) : UpdateData :=
  { fullName := jsTrim b.fullName
    email := b.email
    phone := b.phone
    city := b.city
    propertyType := b.propertyType
    bhk := b.bhk
    purpose := b.purpose
    budgetMin := ratBudgetToInt b.budgetMin
    budgetMax := ratBudgetToInt b.budgetMax
    timeline := b.timeline
    source := b.source
    notes := b.notes
    tags := b.tags.getD []
    status := b.status
    updatedAt := none }

/-- Parsed output of createBuyerSchema on a body that validated. -/
structure CreateData where
  fullName : String
  email : Option String
  phone : String
  city : String
  propertyType : String
  bhk : Option String
  purpose : String
  budgetMin : Option Int
  budgetMax : Option Int
  timeline : String
  source : String
  notes : Option String
  tags : List String
deriving DecidableEq, Repr

/-- The parsed create data of a body with no validation issue. -/
def parseCreateData (b : CreateBody) : CreateData :=
  { fullName := jsTrim b.fullName
    email := b.email
    phone := b.phone
    city := b.city
    propertyType := b.propertyType
    bhk := b.bhk
    purpose := b.purpose
    budgetMin := ratBudgetToInt b.budgetMin
    budgetMax := ratBudgetToInt b.budgetMax
    timeline := b.timeline
    source := b.source
    notes := b.notes
    tags := b.tags.getD [] }

/-! CSV import, embedded from the import route and csvBuyerSchema.  The
route receives papaparse output with header mode on: the header list and
one record of raw string fields per data row. -/

/-- A budget cell after the route transform: the empty-string sentinel,
NaN from parseInt, or an integer. -/
inductive NumV where
  | empty
  | nan
  | int (n : Int)
deriving DecidableEq, Repr

/-- Model of JavaScript parseInt on a string: skip leading whitespace,
optional sign, then the longest digit run; NaN when no digit follows.
Hexadecimal prefixes are not modelled (no test input here uses them). -/
def jsParseInt (s : String) : NumV :=
  let t := s.toList.dropWhile Char.isWhitespace
  let signed : Int × List Char :=
    match t with
    | '-' :: rest => (-1, rest)
    | '+' :: rest => (1, rest)
    | _ => (1, t)
  let digits := signed.2.takeWhile Char.isDigit
  if digits = [] then .nan
  else .int (signed.1 * (digits.foldl (fun acc c => acc * 10 + (c.toNat - 48)) 0 : Nat))

/-- A raw CSV data row as produced by papaparse: the cell under each
header, absent when the row has no such cell. -/
structure RawCsvRow where
  fullName : Option String
  email : Option String
  phone : Option String
  city : Option String
  propertyType : Option String
  bhk : Option String
  purpose : Option String
  budgetMin : Option String
  budgetMax : Option String
  timeline : Option String
  source : Option String
  notes : Option String
  tags : Option String
  status : Option String
deriving DecidableEq, Repr

/-- Raw cell lookup by header name, used for the value member of an error
entry. -/
def rawField (r : RawCsvRow) : String → Option String
  | "fullName" => r.fullName
  | "email" => r.email
  | "phone" => r.phone
  | "city" => r.city
  | "propertyType" => r.propertyType
  | "bhk" => r.bhk
  | "purpose" => r.purpose
  | "budgetMin" => r.budgetMin
  | "budgetMax" => r.budgetMax
  | "timeline" => r.timeline
  | "source" => r.source
  | "notes" => r.notes
  | "tags" => r.tags
  | "status" => r.status
  | _ => none

/-- The transformed row the route hands to csvBuyerSchema: strings are
trimmed with empty-string defaults, status defaults to New, and budget
cells go through parseInt when the raw cell is truthy. -/
structure CsvRow where
  fullName : String
  email : String
  phone : String
  city : String
  propertyType : String
  bhk : String
  purpose : String
  budgetMin : NumV
  budgetMax : NumV
  timeline : String
  source : String
  notes : String
  tags : String
  status : String
deriving DecidableEq, Repr

/-- Optional-chain trim with a JavaScript or-default. -/
def trimOr (v : Option String) (d : String) : String :=
  match v with
  | some s => if jsTrim s = "" then d else jsTrim s
  | none => d

/-- The budget cell transform of the route: a falsy raw cell becomes the
empty-string sentinel, otherwise parseInt runs on the raw cell. -/
def toNumField (v : Option String) : NumV :=
  match v with
  | some s => if s = "" then .empty else jsParseInt s
  | none => .empty

/-- The row transform of the import route. -/
def transformRow (r : RawCsvRow) : CsvRow :=
  { fullName := trimOr r.fullName ""
    email := trimOr r.email ""
    phone := trimOr r.phone ""
    city := trimOr r.city ""
    propertyType := trimOr r.propertyType ""
    bhk := trimOr r.bhk ""
    purpose := trimOr r.purpose ""
    budgetMin := toNumField r.budgetMin
    budgetMax := toNumField r.budgetMax
    timeline := trimOr r.timeline ""
    source := trimOr r.source ""
    notes := trimOr r.notes ""
    tags := trimOr r.tags ""
    status := trimOr r.status "New" }

/-- Issue list of a csv budget cell (union of positive integer and the
empty literal): a union failure is a single issue. -/
def csvBudgetIssues (field : String) (v : NumV) : List Issue :=
  match v with
  | .empty => []
  | .nan => [⟨field, "Invalid input"⟩]
  | .int n => if 1 ≤ n then [] else [⟨field, "Invalid input"⟩]

/-- The parsed integer value of a csv budget cell that passed the base
checks. -/
def csvBudgetToInt (v : NumV) : Option Int :=
  match v with
  | .empty => none
  | .nan => none
  | .int n => some n

/-- Base object issues of csvBuyerSchema on a transformed row, field by
field in schema order (this schema uses the default zod messages except
for the shared phoneSchema). -/
def csvBuyerBaseIssues (r : CsvRow) : List Issue :=
  (if 2 ≤ r.fullName.length then [] else
      [⟨"fullName", "String must contain at least 2 character(s)"⟩])
    ++ (if r.fullName.length ≤ 80 then [] else
        [⟨"fullName", "String must contain at most 80 character(s)"⟩])
    ++ (if r.email = "" || isEmailLike r.email then [] else [⟨"email", "Invalid input"⟩])
    ++ phoneIssues r.phone
    ++ enumIssues "city" cityValues r.city
    ++ enumIssues "propertyType" propertyTypeValues r.propertyType
    ++ (if r.bhk = "" || decide (r.bhk ∈ bhkValues) then [] else [⟨"bhk", "Invalid input"⟩])
    ++ enumIssues "purpose" purposeValues r.purpose
    ++ csvBudgetIssues "budgetMin" r.budgetMin
    ++ csvBudgetIssues "budgetMax" r.budgetMax
    ++ enumIssues "timeline" timelineValues r.timeline
    ++ enumIssues "source" sourceValues r.source
    ++ (if r.notes = "" || decide (r.notes.length ≤ 1000) then [] else
        [⟨"notes", "Invalid input"⟩])
    ++ enumIssues "status" statusValues r.status

/-- Full issue list of csvBuyerSchema.parse on a transformed row: the
refinements run only when the base parse produced no issue.  The parsed
bhk is the transform of the union output, where the empty string became
undefined, so the bhk refinement sees a truthy value exactly when the
cell is a nonempty enum value. -/
def csvBuyerIssues (r : CsvRow) : List Issue :=
  let base := csvBuyerBaseIssues r
  if base = [] then
    bhkRefineIssues r.propertyType (r.bhk ≠ "")
      ++ budgetRefineIssues (csvBudgetToInt r.budgetMin) (csvBudgetToInt r.budgetMax)
  else base

/-- parseCsvTags from the source: split on commas, trim, drop empties. -/
def parseCsvTags (tags : String) : List String :=
  if jsTrim tags = "" then []
  else ((splitOnChar ',' tags).map jsTrim).filter (fun t => t.length > 0)

/-- stringifyTags from the source: join with comma-space. -/
def stringifyTags (tags : List String) : String :=
  joinWith ", " tags

/-! Database model, from src/lib/db/schema.ts: the buyers table and the
buyer history table.  Timestamps are epoch milliseconds. -/

/-- A row of the buyers table. -/
structure Buyer where
  id : String
  fullName : String
  email : Option String
  phone : String
  city : String
  propertyType : String
  bhk : Option String
  purpose : String
  budgetMin : Option Int
  budgetMax : Option Int
  timeline : String
  source : String
  status : String
  notes : Option String
  tags : Option (List String)
  ownerId : String
  createdAt : Int
  updatedAt : Int
deriving DecidableEq, Repr

/-- One recorded field change: field name, old value, new value. -/
structure DiffEntry where
  field : String
  oldVal : JVal
  newVal : JVal
deriving DecidableEq, Repr

/-- A row of the buyer history table. -/
structure HistoryEntry where
  id : String
  buyerId : String
  changedBy : String
  changedAt : Int
  diff : List DiffEntry
deriving DecidableEq, Repr

/-- The two tables the buyer routes touch. -/
structure DB where
  buyers : List Buyer
  history : List HistoryEntry
deriving DecidableEq, Repr

/-- Select from buyers where id matches, limit 1. -/
def findBuyer (db : DB) (buyerId : String) : Option Buyer :=
  db.buyers.find? (fun b => b.id = buyerId)

/-- JSON value of a nullable string column. -/
def jvalOfOptStr (v : Option String) : JVal :=
  match v with
  | none => .null
  | some s => .str s

/-- JSON value of a nullable integer column. -/
def jvalOfOptInt (v : Option Int) : JVal :=
  match v with
  | none => .null
  | some n => .num n

/-- JSON value of a nullable tags column. -/
def jvalOfOptTags (v : Option (List String)) : JVal :=
  match v with
  | none => .null
  | some xs => .arrStr xs

/-- One step of the diff loop of the update handler: arrays are compared
by serialized equality, everything else by strict inequality; a changed
pair yields one diff record. -/
def diffStep (field : String) (newV oldV : JVal) : List DiffEntry :=
  let isChanged : Bool :=
    match newV with
    | .arrStr _ => jsonStringify newV != jsonStringify oldV
    | _ => newV != oldV
  if isChanged then [⟨field, oldV, newV⟩] else []

/-- Diff step for a key that is present in the validated data only when
the request body supplied it: an absent key contributes nothing. -/
def optDiff {α : Type} (field : String) (o : Option α) (toVal : α → JVal) (oldV : JVal) :
    List DiffEntry :=
  match o with
  | none => []
  | some x => diffStep field (toVal x) oldV

/-- The diff the update handler computes: it walks the keys present in
the validated data in schema order, skips the updatedAt key, and records
each pair that the comparison flags as changed. -/
def computeDiff (v : UpdateData) (cur : Buyer) : List DiffEntry :=
  diffStep "fullName" (.str v.fullName) (.str cur.fullName)
    ++ optDiff "email" v.email (fun e => .str e) (jvalOfOptStr cur.email)
    ++ diffStep "phone" (.str v.phone) (.str cur.phone)
    ++ diffStep "city" (.str v.city) (.str cur.city)
    ++ diffStep "propertyType" (.str v.propertyType) (.str cur.propertyType)
    ++ optDiff "bhk" v.bhk (fun s => .str s) (jvalOfOptStr cur.bhk)
    ++ diffStep "purpose" (.str v.purpose) (.str cur.purpose)
    ++ optDiff "budgetMin" v.budgetMin (fun n => .num n) (jvalOfOptInt cur.budgetMin)
    ++ optDiff "budgetMax" v.budgetMax (fun n => .num n) (jvalOfOptInt cur.budgetMax)
    ++ diffStep "timeline" (.str v.timeline) (.str cur.timeline)
    ++ diffStep "source" (.str v.source) (.str cur.source)
    ++ optDiff "notes" v.notes (fun s => .str s) (jvalOfOptStr cur.notes)
    ++ diffStep "tags" (.arrStr v.tags) (jvalOfOptTags cur.tags)
    ++ optDiff "status" v.status (fun s => .str s) (.str cur.status)

/-- The buyer row after the update statement: every key present in the
validated data overwrites the stored value, with the empty string
normalized to null for email and notes, and a fresh updatedAt. -/
def applyUpdate (cur : Buyer) (v : UpdateData) (now : Int) : Buyer :=
  { cur with
    fullName := v.fullName
    email := (match v.email with
      | none => cur.email
      | some e => if e = "" then none else some e)
    phone := v.phone
    city := v.city
    propertyType := v.propertyType
    bhk := (match v.bhk with
      | none => cur.bhk
      | some s => some s)
    purpose := v.purpose
    budgetMin := (match v.budgetMin with
      | none => cur.budgetMin
      | some n => some n)
    budgetMax := (match v.budgetMax with
      | none => cur.budgetMax
      | some n => some n)
    timeline := v.timeline
    source := v.source
    status := (match v.status with
      | none => cur.status
      | some s => s)
    notes := (match v.notes with
      | none => cur.notes
      | some s => if s = "" then none else some s)
    tags := some v.tags
    updatedAt := now }

/-- Apply a list of independently executed database statements in order.
Each element is one atomic statement; the source wraps none of them in a
transaction, so a failure between two statements leaves every earlier
statement applied. -/
def applyStatements (stmts : List (DB → DB)) (db : DB) : DB :=
  stmts.foldl (fun d f => f d) db

/-- Apply only the first n statements, the state a run reaches when the
following statement fails. -/
def applyFirstN (n : Nat) (stmts : List (DB → DB)) (db : DB) : DB :=
  applyStatements (stmts.take n) db

/-- The update statement of the PUT handler. -/
def putUpdateStmt (buyerId : String) (v : UpdateData) (now : Int) : DB → DB :=
  fun d => { d with buyers := d.buyers.map (fun b => if b.id = buyerId then applyUpdate b v now else b) }

/-- The history insert of the PUT handler, issued only when the diff is
nonempty. -/
def putHistoryStmt (histId buyerId uid : String) (diff : List DiffEntry) (now : Int) : DB → DB :=
  fun d => { d with history := d.history ++ [⟨histId, buyerId, uid, now, diff⟩] }

/-- The database statements the PUT handler issues on its success path:
the buyer update, then, separately, the history insert when the diff is
nonempty.  There is no transaction around them in the source. -/
def putStatements (buyerId uid histId : String) (v : UpdateData) (cur : Buyer) (now : Int) :
    List (DB → DB) :=
  [putUpdateStmt buyerId v now]
    ++ (if computeDiff v cur = [] then [] else
        [putHistoryStmt histId buyerId uid (computeDiff v cur) now])

/-- Result of the PUT handler. -/
inductive PutResult where
  | unauthorized
  | validationFailed (issues : List Issue)
  | notFound
  | forbidden
  | conflict (currentUpdatedAt : Int)
  | ok (updated : Buyer)
deriving DecidableEq, Repr

/-- The PUT handler of the buyer detail route: session check, body
validation, buyer lookup, ownership check, optional concurrency check on
the parsed updatedAt, then the update and conditional history insert. -/
def putHandler (db : DB) (sessionUserId : Option String) (buyerId : String)
    (body : UpdateBody) (now : Int) (histId : String) : PutResult × DB :=
  match sessionUserId with
  | none => (.unauthorized, db)
  | some uid =>
      if updateBuyerIssues body ≠ [] then (.validationFailed (updateBuyerIssues body), db)
      else
        let v := parseUpdateData body
        match findBuyer db buyerId with
        | none => (.notFound, db)
        | some cur =>
            if cur.ownerId ≠ uid then (.forbidden, db)
            else
              match v.updatedAt with
              | some provided =>
                  if provided ≠ cur.updatedAt then (.conflict cur.updatedAt, db)
                  else
                    (.ok (applyUpdate cur v now),
                      applyStatements (putStatements buyerId uid histId v cur now) db)
              | none =>
                  (.ok (applyUpdate cur v now),
                    applyStatements (putStatements buyerId uid histId v cur now) db)

/-- Result of the DELETE handler. -/
inductive DeleteResult where
  | unauthorized
  | notFound
  | forbidden
  | deleted
deriving DecidableEq, Repr

/-- The DELETE handler of the buyer detail route: session check, lookup,
ownership check, then delete with cascading history deletion. -/
def deleteHandler (db : DB) (sessionUserId : Option String) (buyerId : String) :
    DeleteResult × DB :=
  match sessionUserId with
  | none => (.unauthorized, db)
  | some uid =>
      match findBuyer db buyerId with
      | none => (.notFound, db)
      | some cur =>
          if cur.ownerId ≠ uid then (.forbidden, db)
          else
            (.deleted,
              { buyers := db.buyers.filter (fun b => b.id ≠ buyerId)
                history := db.history.filter (fun h => h.buyerId ≠ buyerId) })

/-- Insert a history entry in descending changedAt position, keeping the
earlier of equal keys first. -/
def insertDescByChangedAt (h : HistoryEntry) : List HistoryEntry → List HistoryEntry
  | [] => [h]
  | x :: xs =>
      if x.changedAt < h.changedAt then h :: x :: xs
      else x :: insertDescByChangedAt h xs

/-- Order history entries by changedAt, newest first. -/
def sortDescByChangedAt : List HistoryEntry → List HistoryEntry
  | [] => []
  | x :: xs => insertDescByChangedAt x (sortDescByChangedAt xs)

/-- Result of the GET handler of the buyer detail route. -/
inductive GetResult where
  | unauthorized
  | notFound
  | found (buyer : Buyer) (history : List HistoryEntry)
deriving DecidableEq, Repr

/-- The GET handler of the buyer detail route: session check and lookup,
with the five most recent history entries; it has no ownership check. -/
def getHandler (db : DB) (sessionUserId : Option String) (buyerId : String) : GetResult :=
  match sessionUserId with
  | none => .unauthorized
  | some _ =>
      match findBuyer db buyerId with
      | none => .notFound
      | some b =>
          .found b ((sortDescByChangedAt (db.history.filter (fun h => h.buyerId = buyerId))).take 5)

/-- The buyer row the create handler inserts from validated data. -/
def createBuyerRow (v : CreateData) (newId ownerId : String) (now : Int) : Buyer :=
  { id := newId
    fullName := v.fullName
    email := (match v.email with
      | none => none
      | some e => if e = "" then none else some e)
    phone := v.phone
    city := v.city
    propertyType := v.propertyType
    bhk := v.bhk
    purpose := v.purpose
    budgetMin := v.budgetMin
    budgetMax := v.budgetMax
    timeline := v.timeline
    source := v.source
    status := "New"
    notes := (match v.notes with
      | none => none
      | some s => if s = "" then none else some s)
    tags := some v.tags
    ownerId := ownerId
    createdAt := now
    updatedAt := now }

/-- The history entry the create handler inserts: a single entry whose
diff has the one key created. -/
def createHistoryEntry (histId buyerId uid : String) (now : Int) : HistoryEntry :=
  ⟨histId, buyerId, uid, now, [⟨"created", .null, .str "Lead created"⟩]⟩

/-- The database statements of the create handler success path: the buyer
insert, then, separately, the history insert.  No transaction spans
them. -/
def createStatements (v : CreateData) (newId histId uid : String) (now : Int) :
    List (DB → DB) :=
  [fun d => { d with buyers := d.buyers ++ [createBuyerRow v newId uid now] },
   fun d => { d with history := d.history ++ [createHistoryEntry histId newId uid now] }]

/-- Result of the create handler. -/
inductive CreateResult where
  | unauthorized
  | validationFailed (issues : List Issue)
  | created (buyer : Buyer)
deriving DecidableEq, Repr

/-- The POST create handler from the point where the session user is
resolved (the user-synchronization preamble of the route touches only the
auth tables): body validation, buyer insert, history insert. -/
def createHandler (db : DB) (sessionUserId : Option String) (body : CreateBody)
    (newId histId : String) (now : Int) : CreateResult × DB :=
  match sessionUserId with
  | none => (.unauthorized, db)
  | some uid =>
      if createBuyerIssues body ≠ [] then (.validationFailed (createBuyerIssues body), db)
      else
        let v := parseCreateData body
        (.created (createBuyerRow v newId uid now),
          applyStatements (createStatements v newId histId uid now) db)

/-! The CSV import route. -/

/-- One error entry of the import response: data row number (the first
data row is row 2), field, message, and the raw cell value with the
string unknown for falsy cells. -/
structure CsvError where
  row : Nat
  field : String
  message : String
  value : String
deriving DecidableEq, Repr

/-- The error entries one failing row contributes: one entry per
validation issue of that row. -/
def rowErrors (raw : RawCsvRow) (t : CsvRow) (rowNumber : Nat) : List CsvError :=
  (csvBuyerIssues t).map
    (fun iss => ⟨rowNumber, iss.field, iss.message, jsOrString (rawField raw iss.field) "unknown"⟩)

/-- The staged buyer row built from a validated transformed row: the
empty-string placeholders of the schema transforms become null, a falsy
budget value becomes null, and tags are parsed from the comma-separated
cell. -/
def stageCsvRow (t : CsvRow) (newId ownerId : String) (now : Int) : Buyer :=
  { id := newId
    fullName := t.fullName
    email := if t.email = "" then none else some t.email
    phone := t.phone
    city := t.city
    propertyType := t.propertyType
    bhk := if t.bhk = "" then none else some t.bhk
    purpose := t.purpose
    budgetMin := if jsTruthyInt (csvBudgetToInt t.budgetMin) then csvBudgetToInt t.budgetMin else none
    budgetMax := if jsTruthyInt (csvBudgetToInt t.budgetMax) then csvBudgetToInt t.budgetMax else none
    timeline := t.timeline
    source := t.source
    status := t.status
    notes := if t.notes = "" then none else some t.notes
    tags := some (parseCsvTags t.tags)
    ownerId := ownerId
    createdAt := now
    updatedAt := now }

/-- The per-row loop of the import route: validate each data row
independently, stage the valid ones, collect one error entry per issue
for the failing ones.  The row counter starts at i and the reported row
number is the counter plus 2.  Fresh row ids come from the uuid draw
function. -/
def processRows (ownerId : String) (uuidGen : Nat → String) (now : Int) :
    Nat → List RawCsvRow → List Buyer × List CsvError
  | _, [] => ([], [])
  | i, raw :: rest =>
      let t := transformRow raw
      let tail := processRows ownerId uuidGen now (i + 1) rest
      if csvBuyerIssues t = [] then
        (stageCsvRow t (uuidGen i) ownerId now :: tail.1, tail.2)
      else
        (tail.1, rowErrors raw t (i + 2) ++ tail.2)

/-- The expected CSV headers of the import route. -/
def expectedHeaders : List String :=
  ["fullName", "email", "phone", "city", "propertyType", "bhk", "purpose",
   "budgetMin", "budgetMax", "timeline", "source", "notes", "tags", "status"]

/-- The import summary of a processed file. -/
structure ImportSummary where
  totalRows : Nat
  validRows : Nat
  errorRows : Nat
  errors : List CsvError
  importedIds : List String
deriving DecidableEq, Repr

/-- Result of the import route. -/
inductive ImportResult where
  | unauthorized
  | emptyFile
  | tooManyRows
  | missingHeaders (missing : List String)
  | imported (summary : ImportSummary)
deriving DecidableEq, Repr

/-- The history entries of an import: one per inserted buyer, each with
the single diff key imported. -/
def importHistoryEntries (staged : List Buyer) (histIdGen : Nat → String) (uid : String)
    (now : Int) : List HistoryEntry :=
  (staged.enum.map
    (fun p => ⟨histIdGen p.1, p.2.id, uid, now, [⟨"imported", .null, .str "Lead imported from CSV"⟩]⟩))

/-- The database statements of the import success path when at least one
row staged: the bulk buyer insert, then, separately, the bulk history
insert.  No transaction spans the two. -/
def importStatements (staged : List Buyer) (histIdGen : Nat → String) (uid : String)
    (now : Int) : List (DB → DB) :=
  if staged = [] then []
  else
    [fun d => { d with buyers := d.buyers ++ staged },
     fun d => { d with history := d.history ++ importHistoryEntries staged histIdGen uid now }]

/-- The import route from the parsed CSV on: session check, row-count
guards, header guard, per-row validation, bulk insert of the staged rows
with their history entries, and the summary. -/
def importHandler (db : DB) (sessionUserId : Option String) (headers : List String)
    (rows : List RawCsvRow) (uuidGen histIdGen : Nat → String) (now : Int) :
    ImportResult × DB :=
  match sessionUserId with
  | none => (.unauthorized, db)
  | some uid =>
      if rows.length = 0 then (.emptyFile, db)
      else if rows.length > 200 then (.tooManyRows, db)
      else
        if expectedHeaders.filter (fun h => h ∉ headers) ≠ [] then
          (.missingHeaders (expectedHeaders.filter (fun h => h ∉ headers)), db)
        else
          let processed := processRows uid uuidGen now 0 rows
          (.imported
            ⟨rows.length, processed.1.length, processed.2.length, processed.2,
              processed.1.map (fun b => b.id)⟩,
            applyStatements (importStatements processed.1 histIdGen uid now) db)

/-! The CSV export route.  It reuses the list filter schema with a
hard-coded page of 1 and limit of 10000. -/

/-- The raw filter parameters the export route reads from the query
string, with the source defaults for sortBy and sortOrder already
applied. -/
structure FilterParams where
  search : Option String
  city : Option String
  propertyType : Option String
  status : Option String
  timeline : Option String
  sortBy : String
  sortOrder : String
deriving DecidableEq, Repr

/-- The sortable column names of buyerFiltersSchema. -/
def sortByValues : List String :=
  ["fullName", "phone", "city", "propertyType", "status", "updatedAt"]

/-- Issue list of an optional enum filter field. -/
def enumOptIssues (field : String) (values : List String) (v : Option String) : List Issue :=
  match v with
  | none => []
  | some s => enumIssues field values s

/-- Issue list of buyerFiltersSchema.parse on numeric page and limit
values and the remaining filter fields: page and limit must be positive
integers and limit is capped at 50. -/
def buyerFiltersIssues (page limit : Int) (p : FilterParams) : List Issue :=
  (if 1 ≤ page then [] else [⟨"page", "Number must be greater than 0"⟩])
    ++ (if 1 ≤ limit then [] else [⟨"limit", "Number must be greater than 0"⟩])
    ++ (if limit ≤ 50 then [] else [⟨"limit", "Number must be less than or equal to 50"⟩])
    ++ enumOptIssues "city" cityValues p.city
    ++ enumOptIssues "propertyType" propertyTypeValues p.propertyType
    ++ enumOptIssues "status" statusValues p.status
    ++ enumOptIssues "timeline" timelineValues p.timeline
    ++ enumIssues "sortBy" sortByValues p.sortBy
    ++ enumIssues "sortOrder" (["asc", "desc"] : List String) p.sortOrder

/-- Case-insensitive character list containment, the model of the SQL
ilike with wildcards on both sides. -/
def charsStartWith : List Char → List Char → Bool
  | _, [] => true
  | [], _ :: _ => false
  | h :: hs, p :: ps => (h = p : Bool) && charsStartWith hs ps

/-- Containment of the pattern anywhere in the haystack. -/
def charsContain (pat : List Char) : List Char → Bool
  | [] => charsStartWith [] pat
  | c :: hs => charsStartWith (c :: hs) pat || charsContain pat hs

/-- Model of ilike with percent wildcards around the search term. -/
def ilikeContains (hay pat : String) : Bool :=
  charsContain (lowerStr pat).toList (lowerStr hay).toList

/-- The where clause of the list and export queries: the optional search
matches name, phone or email case-insensitively (a null email never
matches), and each present enum filter must match exactly. -/
def matchesFilters (p : FilterParams) (b : Buyer) : Bool :=
  (match p.search with
    | none => true
    | some s =>
        ilikeContains b.fullName s || ilikeContains b.phone s
          || (match b.email with
              | none => false
              | some e => ilikeContains e s))
    && (match p.city with | none => true | some c => b.city = c)
    && (match p.propertyType with | none => true | some c => b.propertyType = c)
    && (match p.status with | none => true | some c => b.status = c)
    && (match p.timeline with | none => true | some c => b.timeline = c)

/-- The sort key under a sortBy column, as a string for the text columns
and the updatedAt number otherwise. -/
def buyerSortLe (sortBy : String) (a b : Buyer) : Bool :=
  match sortBy with
  | "fullName" => a.fullName ≤ b.fullName
  | "phone" => a.phone ≤ b.phone
  | "city" => a.city ≤ b.city
  | "propertyType" => a.propertyType ≤ b.propertyType
  | "status" => a.status ≤ b.status
  | _ => a.updatedAt ≤ b.updatedAt

/-- Insertion step of the order-by model. -/
def insertBuyerBy (le : Buyer → Buyer → Bool) (x : Buyer) : List Buyer → List Buyer
  | [] => [x]
  | y :: ys => if le x y then x :: y :: ys else y :: insertBuyerBy le x ys

/-- Stable sort of the selected buyers under the order-by clause. -/
def sortBuyersBy (le : Buyer → Buyer → Bool) : List Buyer → List Buyer
  | [] => []
  | x :: xs => insertBuyerBy le x (sortBuyersBy le xs)

/-- The order-by clause: ascending under asc, descending otherwise. -/
def orderClause (sortBy sortOrder : String) : List Buyer → List Buyer :=
  if sortOrder = "asc" then sortBuyersBy (buyerSortLe sortBy)
  else sortBuyersBy (fun a b => buyerSortLe sortBy b a)

/-- Executable stand-in for Date.toISOString, an injective rendering of
the epoch-millisecond instant (the true calendar formatting is a host
library detail no claim depends on). -/
def isoString (ms : Int) : String :=
  "epoch-ms:" ++ toString ms

/-- One CSV record of the export: the fixed column set, with falsy
budgets, email, bhk and notes rendered as empty cells, tags joined, and
the timestamps rendered as instant strings. -/
def exportRecord (b : Buyer) : List String :=
  [b.fullName,
   jsOrString b.email "",
   b.phone,
   b.city,
   b.propertyType,
   jsOrString b.bhk "",
   b.purpose,
   (match b.budgetMin with | some n => if n ≠ 0 then toString n else "" | none => ""),
   (match b.budgetMax with | some n => if n ≠ 0 then toString n else "" | none => ""),
   b.timeline,
   b.source,
   jsOrString b.notes "",
   stringifyTags (b.tags.getD []),
   b.status,
   isoString b.createdAt,
   isoString b.updatedAt]

/-- The CSV column list of the export. -/
def exportColumns : List String :=
  ["fullName", "email", "phone", "city", "propertyType", "bhk", "purpose",
   "budgetMin", "budgetMax", "timeline", "source", "notes", "tags", "status",
   "createdAt", "updatedAt"]

/-- Result of the export route: the csv case carries the header columns
and the serialized records in order (the papaparse text rendering is kept
structural). -/
inductive ExportResult where
  | unauthorized
  | invalidParams (issues : List Issue)
  | noRows
  | csv (columns : List String) (records : List (List String))
deriving DecidableEq, Repr

/-- The export route: session check, then buyerFiltersSchema.parse on the
query filters with page hard-coded to 1 and limit hard-coded to 10000 (a
thrown validation error is caught and returned as the invalid-parameters
response), then the unpaginated filtered query in sort order, a 404 when
nothing matched, and otherwise the CSV payload. -/
def exportHandler (db : DB) (sessionUserId : Option String) (p : FilterParams) :
    ExportResult :=
  match sessionUserId with
  | none => .unauthorized
  | some _ =>
      let issues := buyerFiltersIssues 1 10000 p
      if issues ≠ [] then .invalidParams issues
      else
        let rows := orderClause p.sortBy p.sortOrder (db.buyers.filter (matchesFilters p))
        if rows = [] then .noRows
        else .csv exportColumns (rows.map exportRecord)

/-! Concrete fixtures used by the witnesses and counterexamples. -/

/-- A request with a forwarded IP and no user id header. -/
def reqA : Request := ⟨some "1.2.3.4", none, none⟩

/-- A deterministic id supply for tests. -/
def idGen : Nat → String := fun n => "id-" ++ toString n

/-- A fully valid create body. -/
def okCreate : CreateBody :=
  { fullName := "Asha Verma", email := some "asha@example.com", phone := "9876543210",
    city := "Mohali", propertyType := "Plot", bhk := none, purpose := "Buy",
    budgetMin := some 5000000, budgetMax := some 7000000, timeline := "0-3m",
    source := "Website", notes := none, tags := some [] }

/-- A fully valid raw CSV row. -/
def okRaw : RawCsvRow :=
  { fullName := some "Asha Verma", email := some "", phone := some "9876543210",
    city := some "Mohali", propertyType := some "Plot", bhk := some "",
    purpose := some "Buy", budgetMin := some "", budgetMax := some "",
    timeline := some "0-3m", source := some "Website", notes := some "",
    tags := some "", status := some "New" }

/-- A stored buyer owned by user u1. -/
def storedBuyer : Buyer :=
  { id := "b1", fullName := "Asha Verma", email := none, phone := "9876543210",
    city := "Mohali", propertyType := "Plot", bhk := none, purpose := "Buy",
    budgetMin := none, budgetMax := none, timeline := "0-3m", source := "Website",
    status := "New", notes := none, tags := some [], ownerId := "u1",
    createdAt := 1000, updatedAt := 2000 }

/-- A database holding the one stored buyer and no history. -/
def db0 : DB := ⟨[storedBuyer], []⟩

/-- An update body resubmitting exactly the stored values of the fixture
buyer. -/
def sameBody : UpdateBody :=
  { fullName := "Asha Verma", email := none, phone := "9876543210", city := "Mohali",
    propertyType := "Plot", bhk := none, purpose := "Buy", budgetMin := none,
    budgetMax := none, timeline := "0-3m", source := "Website", notes := none,
    tags := some [], status := some "New", updatedAt := none }

/-- The fixture update body with only the status changed. -/
def statusBody : UpdateBody := { sameBody with status := some "Qualified" }

/-- The export query with no filters and the default sort. -/
def defaultFilters : FilterParams := ⟨none, none, none, none, none, "updatedAt", "desc"⟩

/-! Helper lemmas about the rate limiter. -/

/-- A missing or expired entry is absent after cleanup. -/
theorem cleanup_key_none {now : Int} {store : Store} {key : String}
    (h : store key = none ∨ ∃ d, store key = some d ∧ now > d.resetTime) :
    cleanup now store key = none := by
  rcases h with h | ⟨d, hd, hgt⟩
  · simp [cleanup, h]
  · simp [cleanup, hd, hgt]

/-- A live entry survives cleanup. -/
theorem cleanup_key_some {now : Int} {store : Store} {key : String} {d : RateLimitData}
    (h : store key = some d) (hle : now ≤ d.resetTime) :
    cleanup now store key = some d := by
  simp only [cleanup, h]
  rw [if_neg (by omega : ¬ now > d.resetTime)]

/-- Lookup after a set at the same key. -/
theorem storeSet_same (s : Store) (k : String) (d : RateLimitData) :
    storeSet s k d k = some d := by
  simp [storeSet]

/-- Reset branch of check: the key is absent from the cleaned store. -/
theorem checkKey_reset {max : Nat} {w : Int} {key : String} {now : Int} {store : Store}
    (h : cleanup now store key = none) :
    checkKey max w key now store =
      (⟨true, (max : Int) - 1, now + w, max⟩,
        storeSet (cleanup now store) key ⟨1, now + w⟩) := by
  simp only [checkKey, storeGet, h]

/-- Deny branch of check: a live entry at the limit. -/
theorem checkKey_deny {max : Nat} {w : Int} {key : String} {now : Int} {store : Store}
    {d : RateLimitData} (h : store key = some d) (hle : now ≤ d.resetTime)
    (hcount : d.count ≥ max) :
    checkKey max w key now store = (⟨false, 0, d.resetTime, max⟩, cleanup now store) := by
  simp only [checkKey, storeGet, cleanup_key_some h hle]
  rw [if_neg (by omega : ¬ now > d.resetTime), if_pos hcount]

/-- Increment branch of check: a live entry below the limit. -/
theorem checkKey_incr {max : Nat} {w : Int} {key : String} {now : Int} {store : Store}
    {d : RateLimitData} (h : store key = some d) (hle : now ≤ d.resetTime)
    (hcount : d.count < max) :
    checkKey max w key now store =
      (⟨true, (max : Int) - (d.count + 1 : Nat), d.resetTime, max⟩,
        storeSet (cleanup now store) key ⟨d.count + 1, d.resetTime⟩) := by
  simp only [checkKey, storeGet, cleanup_key_some h hle]
  rw [if_neg (by omega : ¬ now > d.resetTime), if_neg (by omega : ¬ d.count ≥ max)]

/-- A run of checks against a live entry, long enough to pass the limit,
ends in a denial and leaves the counter at the limit. -/
theorem checkSeq_denied (max : Nat) (w : Int) (key : String) :
    ∀ (ts : List Int) (c : Nat) (R : Int) (store : Store),
      store key = some ⟨c, R⟩ → (∀ t ∈ ts, t ≤ R) → 1 ≤ c → c ≤ max →
      c + ts.length = max + 1 →
      (∃ rs, (checkSeq max w key ts store).1 = rs ++ [⟨false, 0, R, max⟩])
        ∧ (checkSeq max w key ts store).2 key = some ⟨max, R⟩ := by
  intro ts
  induction ts with
  | nil =>
      intro c R store _ _ _ hle hlen
      exfalso
      simp at hlen
      omega
  | cons t ts ih =>
      intro c R store hs hts h1 hle hlen
      have htR : t ≤ R := hts t (List.mem_cons_self t ts)
      by_cases hc : c ≥ max
      · have hcm : c = max := le_antisymm hle hc
        subst hcm
        have hts0 : ts = [] := by
          rw [List.length_cons] at hlen
          have hl : ts.length = 0 := by omega
          exact List.length_eq_zero.mp hl
        subst hts0
        have hk := @checkKey_deny c w key t store ⟨c, R⟩ hs htR (le_refl c)
        refine ⟨⟨[], ?_⟩, ?_⟩
        · simp [checkSeq, hk]
        · simp [checkSeq, hk, cleanup_key_some hs htR]
      · push_neg at hc
        have hk := @checkKey_incr max w key t store ⟨c, R⟩ hs htR hc
        have hstep : (storeSet (cleanup t store) key ⟨c + 1, R⟩) key = some ⟨c + 1, R⟩ :=
          storeSet_same _ _ _
        have hlen' : (c + 1) + ts.length = max + 1 := by
          rw [List.length_cons] at hlen
          omega
        obtain ⟨⟨rs, hrs⟩, hfin⟩ :=
          ih (c + 1) R _ hstep (fun t' ht' => hts t' (List.mem_cons_of_mem _ ht'))
            (by omega) (by omega) hlen'
        refine ⟨⟨⟨true, (max : Int) - (c + 1 : Nat), R, max⟩ :: rs, ?_⟩, ?_⟩
        · simp only [checkSeq, hk]
          simp [hrs]
        · simp only [checkSeq, hk]
          simp [hfin]

/-! Helper lemmas about the update handler. -/

/-- Every record a diff step emits carries the field of that step. -/
theorem diffStep_field {d : DiffEntry} {f : String} {n o : JVal} (h : d ∈ diffStep f n o) :
    d.field = f := by
  simp only [diffStep] at h
  split at h
  · rcases List.mem_singleton.mp h with rfl
    rfl
  · exact absurd h (List.not_mem_nil d)

/-- Every record an optional diff step emits carries the field of that
step. -/
theorem optDiff_field {α : Type} {d : DiffEntry} {f : String} {o : Option α}
    {toVal : α → JVal} {oldV : JVal} (h : d ∈ optDiff f o toVal oldV) : d.field = f := by
  cases o with
  | none => exact absurd h (List.not_mem_nil d)
  | some x => exact diffStep_field h

/-- The computed update diff only ever mentions the data fields; in
particular it never mentions updatedAt, which the loop skips. -/
theorem computeDiff_field_ne_updatedAt (v : UpdateData) (cur : Buyer) :
    ∀ d ∈ computeDiff v cur, d.field ≠ "updatedAt" := by
  intro d hd
  simp only [computeDiff, List.mem_append] at hd
  rcases hd with
    ((((((((((((hd | hd) | hd) | hd) | hd) | hd) | hd) | hd) | hd) | hd) | hd) | hd) | hd) | hd
  · rw [diffStep_field hd]; decide
  · rw [optDiff_field hd]; decide
  · rw [diffStep_field hd]; decide
  · rw [diffStep_field hd]; decide
  · rw [diffStep_field hd]; decide
  · rw [optDiff_field hd]; decide
  · rw [diffStep_field hd]; decide
  · rw [optDiff_field hd]; decide
  · rw [optDiff_field hd]; decide
  · rw [diffStep_field hd]; decide
  · rw [diffStep_field hd]; decide
  · rw [optDiff_field hd]; decide
  · rw [diffStep_field hd]; decide
  · rw [optDiff_field hd]; decide

/-- The PUT handler on a body that fails validation. -/
theorem putHandler_invalid {db : DB} {uid buyerId : String} {body : UpdateBody}
    {now : Int} {histId : String} (hv : updateBuyerIssues body ≠ []) :
    putHandler db (some uid) buyerId body now histId
      = (.validationFailed (updateBuyerIssues body), db) := by
  simp [putHandler, hv]

/-- The PUT handler on a valid body for a missing buyer. -/
theorem putHandler_notFound {db : DB} {uid buyerId : String} {body : UpdateBody}
    {now : Int} {histId : String} (hv : updateBuyerIssues body = [])
    (hfind : findBuyer db buyerId = none) :
    putHandler db (some uid) buyerId body now histId = (.notFound, db) := by
  simp [putHandler, hv, hfind]

/-- The PUT handler on a valid body by a non-owner. -/
theorem putHandler_forbidden {db : DB} {uid buyerId : String} {body : UpdateBody}
    {now : Int} {histId : String} {cur : Buyer} (hv : updateBuyerIssues body = [])
    (hfind : findBuyer db buyerId = some cur) (howner : cur.ownerId ≠ uid) :
    putHandler db (some uid) buyerId body now histId = (.forbidden, db) := by
  simp [putHandler, hv, hfind, howner]

/-- The PUT handler on a valid body by the owner: the parsed updatedAt is
always absent, so the concurrency branch never fires and the handler
applies its two statements. -/
theorem putHandler_success {db : DB} {uid buyerId : String} {body : UpdateBody}
    {now : Int} {histId : String} {cur : Buyer} (hv : updateBuyerIssues body = [])
    (hfind : findBuyer db buyerId = some cur) (howner : cur.ownerId = uid) :
    putHandler db (some uid) buyerId body now histId
      = (.ok (applyUpdate cur (parseUpdateData body) now),
          applyStatements (putStatements buyerId uid histId (parseUpdateData body) cur now) db) := by
  simp [putHandler, hv, hfind, howner, parseUpdateData]

/-- The history table after the PUT statements: unchanged when the diff
is empty, extended by the one new entry otherwise. -/
theorem putStatements_history (buyerId uid histId : String) (v : UpdateData) (cur : Buyer)
    (now : Int) (db : DB) :
    (applyStatements (putStatements buyerId uid histId v cur now) db).history
      = db.history ++ (if computeDiff v cur = [] then [] else
          [⟨histId, buyerId, uid, now, computeDiff v cur⟩]) := by
  by_cases h : computeDiff v cur = []
  · simp [putStatements, applyStatements, putUpdateStmt, h]
  · simp [putStatements, applyStatements, putUpdateStmt, putHistoryStmt, h]

/-- C8: For every sequence of rate-limit check calls on one client key
with fixed maxRequests and windowMs: a call with no stored entry or with
now past the stored resetTime resets the entry to count 1 and resetTime
now + windowMs and allows with remaining maxRequests - 1; a call within
the window with count at least maxRequests denies with remaining 0 and
the stored resetTime; any other call increments the count and allows with
remaining maxRequests - count.  Consequently the request following
maxRequests requests within one window is denied (and the counter rests
at the limit), and the first request after the reset time elapses falls
under the reset clause and is allowed with remaining maxRequests - 1. -/
theorem rate_limit_check_spec (max : Nat) (w : Int) (key : String) :
    (∀ (now : Int) (store : Store),
        (store key = none ∨ ∃ d, store key = some d ∧ now > d.resetTime) →
        (checkKey max w key now store).1 = ⟨true, (max : Int) - 1, now + w, max⟩
          ∧ (checkKey max w key now store).2 key = some ⟨1, now + w⟩)
    ∧ (∀ (now : Int) (store : Store) (d : RateLimitData),
        store key = some d → now ≤ d.resetTime → d.count ≥ max →
        (checkKey max w key now store).1 = ⟨false, 0, d.resetTime, max⟩
          ∧ (checkKey max w key now store).2 key = some d)
    ∧ (∀ (now : Int) (store : Store) (d : RateLimitData),
        store key = some d → now ≤ d.resetTime → d.count < max →
        (checkKey max w key now store).1
            = ⟨true, (max : Int) - (d.count + 1 : Nat), d.resetTime, max⟩
          ∧ (checkKey max w key now store).2 key = some ⟨d.count + 1, d.resetTime⟩)
    ∧ (∀ (t0 : Int) (ts : List Int), 1 ≤ max → ts.length = max →
        (∀ t ∈ ts, t ≤ t0 + w) →
        (∃ rs, (checkSeq max w key (t0 :: ts) emptyStore).1
            = rs ++ [⟨false, 0, t0 + w, max⟩])
          ∧ (checkSeq max w key (t0 :: ts) emptyStore).2 key = some ⟨max, t0 + w⟩) := by
  refine ⟨?_, ?_, ?_, ?_⟩
  · intro now store h
    have h0 := cleanup_key_none h
    rw [checkKey_reset h0]
    exact ⟨rfl, storeSet_same _ _ _⟩
  · intro now store d h hle hcount
    rw [checkKey_deny h hle hcount]
    exact ⟨rfl, cleanup_key_some h hle⟩
  · intro now store d h hle hcount
    rw [checkKey_incr h hle hcount]
    exact ⟨rfl, storeSet_same _ _ _⟩
  · intro t0 ts hmax hlen hts
    have h0 : cleanup t0 emptyStore key = none := cleanup_key_none (Or.inl rfl)
    have hk := @checkKey_reset max w key t0 emptyStore h0
    have hs1 : (storeSet (cleanup t0 emptyStore) key ⟨1, t0 + w⟩) key = some ⟨1, t0 + w⟩ :=
      storeSet_same _ _ _
    obtain ⟨⟨rs, hrs⟩, hfin⟩ :=
      checkSeq_denied max w key ts 1 (t0 + w) _ hs1 hts (le_refl 1) hmax (by omega)
    refine ⟨⟨⟨true, (max : Int) - 1, t0 + w, max⟩ :: rs, ?_⟩, ?_⟩
    · simp only [checkSeq, hk]
      simp [hrs]
    · simp only [checkSeq, hk]
      simp [hfin]

/-- Witness for C8: with a limit of 2 in a 100 ms window on key k, a
fresh check allows with remaining 1, a check at the limit denies, a check
below the limit allows with remaining 0, and of three checks inside one
window starting from an empty store the last is denied. -/
theorem rate_limit_check_spec_witness :
    ((checkKey 2 100 "k" 0 emptyStore).1 = ⟨true, 1, 100, 2⟩)
    ∧ ((checkKey 2 100 "k" 5 (storeSet emptyStore "k" ⟨2, 100⟩)).1 = ⟨false, 0, 100, 2⟩)
    ∧ ((checkKey 2 100 "k" 5 (storeSet emptyStore "k" ⟨1, 100⟩)).1 = ⟨true, 0, 100, 2⟩)
    ∧ (∃ rs, (checkSeq 2 100 "k" [0, 10, 20] emptyStore).1 = rs ++ [⟨false, 0, 100, 2⟩]) := by
  refine ⟨?_, ?_, ?_, ?_⟩
  · have h := ((rate_limit_check_spec 2 100 "k").1 0 emptyStore (Or.inl rfl)).1
    rw [h]
    decide
  · exact ((rate_limit_check_spec 2 100 "k").2.1 5 _ ⟨2, 100⟩ (storeSet_same _ _ _)
      (by decide) (by decide)).1
  · have h := ((rate_limit_check_spec 2 100 "k").2.2.1 5 (storeSet emptyStore "k" ⟨1, 100⟩)
      ⟨1, 100⟩ (storeSet_same _ _ _) (by decide) (by decide)).1
    rw [h]
    decide
  · exact ((rate_limit_check_spec 2 100 "k").2.2.2 0 [10, 20] (by decide) (by decide)
      (by decide)).1

/-- C7 (refuted, code bug): the four configured limiters do not keep
independent counters.  All limiter instances share the one module-level
store, and the api, mutation and import limiters generate the identical
key for the same client, so a check against one limiter mutates exactly
the entry the others read.  Concretely, for a client with forwarded IP
1.2.3.4 and no user header: one api check writes the entry under the
shared key; a mutation check then sees count 1 already present and
reports remaining 8 instead of the remaining 9 it reports from an empty
store (with the resetTime of the api window, not its own); and after
three api checks a csv import check is denied outright although from an
empty store it would be allowed. -/
theorem rate_limiters_share_one_counter :
    defaultKeyGenerator reqA = "1.2.3.4:"
    ∧ (apiRateLimiter.check reqA 0 emptyStore).2 (defaultKeyGenerator reqA)
        = some ⟨1, 900000⟩
    ∧ (buyerMutationRateLimiter.check reqA 1
        (apiRateLimiter.check reqA 0 emptyStore).2).1 = ⟨true, 8, 900000, 10⟩
    ∧ (buyerMutationRateLimiter.check reqA 1 emptyStore).1 = ⟨true, 9, 60001, 10⟩
    ∧ (csvImportRateLimiter.check reqA 3
        (apiRateLimiter.check reqA 2
          (apiRateLimiter.check reqA 1
            (apiRateLimiter.check reqA 0 emptyStore).2).2).2).1
        = ⟨false, 0, 900000, 3⟩
    ∧ (csvImportRateLimiter.check reqA 3 emptyStore).1.allowed = true := by
  decide

/-- C1 (refuted, code bug): the export route validates its hard-coded
limit of 10000 against buyerFiltersSchema, whose limit field is capped at
50, so the parse throws and every export request is answered with the
invalid-parameters response.  On a database holding one buyer that
matches the unfiltered query, the export yields the validation failure on
the limit field instead of a CSV payload. -/
theorem export_always_fails_limit_validation :
    exportHandler db0 (some "u1") defaultFilters
        = .invalidParams [⟨"limit", "Number must be less than or equal to 50"⟩]
    ∧ (db0.buyers.filter (matchesFilters defaultFilters)).length = 1 := by
  decide

/-- C2 (refuted, code bug): no buyer mutation wraps its row write and its
history write in a transaction; each handler issues them as two separate
statements.  For the fixture update that changes only the status, the PUT
success path issues exactly two statements, and stopping after the first
leaves the buyer row mutated with no history entry, a mutation recorded
without its audit entry.  The CSV import success path equally issues its
bulk buyer insert and bulk history insert as two separate statements. -/
theorem buyer_mutation_not_atomic :
    (putStatements "b1" "u1" "h1" (parseUpdateData statusBody) storedBuyer 3000).length = 2
    ∧ applyFirstN 1
        (putStatements "b1" "u1" "h1" (parseUpdateData statusBody) storedBuyer 3000) db0
        = ⟨[{ storedBuyer with status := "Qualified", updatedAt := 3000 }], []⟩
    ∧ (putHandler db0 (some "u1") "b1" statusBody 3000 "h1").2
        = applyStatements
            (putStatements "b1" "u1" "h1" (parseUpdateData statusBody) storedBuyer 3000) db0
    ∧ (putHandler db0 (some "u1") "b1" statusBody 3000 "h1").2.history.length = 1
    ∧ (importStatements [stageCsvRow (transformRow okRaw) "id-0" "u1" 0] idGen "u1" 0).length = 2
    ∧ (applyFirstN 1
        (importStatements [stageCsvRow (transformRow okRaw) "id-0" "u1" 0] idGen "u1" 0)
        ⟨[], []⟩).buyers.length = 1
    ∧ (applyFirstN 1
        (importStatements [stageCsvRow (transformRow okRaw) "id-0" "u1" 0] idGen "u1" 0)
        ⟨[], []⟩).history = [] := by
  decide

/-- C3 (refuted, code bug): the update schema types updatedAt as a zod
date, which accepts only Date instances, while a request body holds JSON
values only; so every PUT that supplies updatedAt, stale or matching,
fails validation with 400 before the concurrency branch can run, and the
409 conflict answer of the claim is unreachable.  Omitting updatedAt does
let the update proceed.  The fixture buyer stores updatedAt 2000; a body
carrying the stale instant, and a body carrying the exact stored instant
as its ISO rendering, both get the validation failure on updatedAt with
the database untouched, while the same body without updatedAt succeeds. -/
theorem put_supplied_updatedAt_means_validation_error :
    putHandler db0 (some "u1") "b1"
        { sameBody with updatedAt := some (.str "2020-01-01T00:00:00.000Z") } 3000 "h1"
        = (.validationFailed [⟨"updatedAt", "Expected date, received a JSON value"⟩], db0)
    ∧ putHandler db0 (some "u1") "b1"
        { sameBody with updatedAt := some (.str "1970-01-01T00:00:02.000Z") } 3000 "h1"
        = (.validationFailed [⟨"updatedAt", "Expected date, received a JSON value"⟩], db0)
    ∧ (putHandler db0 (some "u1") "b1" sameBody 3000 "h1").1
        = .ok { storedBuyer with updatedAt := 3000 } := by
  decide

/-- C10: After any PUT request, every history entry that was not already
stored carries a diff without the updatedAt key: the diff loop of the
update handler skips that key even though every successful update
rewrites the stored updatedAt. -/
theorem put_history_diff_has_no_updatedAt (db : DB) (sess : Option String)
    (buyerId : String) (body : UpdateBody) (now : Int) (histId : String) :
    ∀ e ∈ (putHandler db sess buyerId body now histId).2.history,
      e ∈ db.history ∨ ∀ d ∈ e.diff, d.field ≠ "updatedAt" := by
  intro e he
  cases sess with
  | none => exact Or.inl (by simpa [putHandler] using he)
  | some uid =>
      by_cases hv : updateBuyerIssues body = []
      · cases hfind : findBuyer db buyerId with
        | none =>
            rw [putHandler_notFound hv hfind] at he
            exact Or.inl he
        | some cur =>
            by_cases howner : cur.ownerId = uid
            · rw [putHandler_success hv hfind howner] at he
              simp only [putStatements_history] at he
              rcases List.mem_append.mp he with hl | hr
              · exact Or.inl hl
              · by_cases hdiff : computeDiff (parseUpdateData body) cur = []
                · rw [if_pos hdiff] at hr
                  exact absurd hr (List.not_mem_nil e)
                · rw [if_neg hdiff] at hr
                  rcases List.mem_singleton.mp hr with rfl
                  exact Or.inr (computeDiff_field_ne_updatedAt (parseUpdateData body) cur)
            · rw [putHandler_forbidden hv hfind howner] at he
              exact Or.inl he
      · rw [putHandler_invalid hv] at he
        exact Or.inl he

/-- Witness for C10: the entry written by the fixture status update is
new and its diff names only the status field. -/
theorem put_history_diff_has_no_updatedAt_witness :
    (⟨"h1", "b1", "u1", 3000, [⟨"status", .str "New", .str "Qualified"⟩]⟩ : HistoryEntry)
        ∈ db0.history
      ∨ ∀ d ∈ (⟨"h1", "b1", "u1", 3000,
            [⟨"status", .str "New", .str "Qualified"⟩]⟩ : HistoryEntry).diff,
          d.field ≠ "updatedAt" :=
  put_history_diff_has_no_updatedAt db0 (some "u1") "b1" statusBody 3000 "h1"
    ⟨"h1", "b1", "u1", 3000, [⟨"status", .str "New", .str "Qualified"⟩]⟩ (by decide)

/-- C6: An authenticated non-owner cannot PUT or DELETE a buyer: with a
body that validates, both handlers answer forbidden and return the
database untouched; the detail GET has no ownership check and returns the
buyer to any authenticated user. -/
theorem ownership_checks (db : DB) (u buyerId : String) (body : UpdateBody)
    (now : Int) (histId : String) (cur : Buyer) :
    (updateBuyerIssues body = [] → findBuyer db buyerId = some cur → cur.ownerId ≠ u →
        putHandler db (some u) buyerId body now histId = (.forbidden, db))
    ∧ (findBuyer db buyerId = some cur → cur.ownerId ≠ u →
        deleteHandler db (some u) buyerId = (.forbidden, db))
    ∧ (findBuyer db buyerId = some cur →
        ∃ hist, getHandler db (some u) buyerId = .found cur hist) := by
  refine ⟨fun hv hfind howner => putHandler_forbidden hv hfind howner, ?_, ?_⟩
  · intro hfind howner
    simp [deleteHandler, hfind, howner]
  · intro hfind
    exact ⟨(sortDescByChangedAt (db.history.filter (fun h => h.buyerId = buyerId))).take 5,
      by simp [getHandler, hfind]⟩

/-- Witness for C6: user u2 is denied the update and the delete of the
fixture buyer owned by u1 but can read it. -/
theorem ownership_checks_witness :
    putHandler db0 (some "u2") "b1" sameBody 3000 "h1" = (.forbidden, db0)
    ∧ deleteHandler db0 (some "u2") "b1" = (.forbidden, db0)
    ∧ ∃ hist, getHandler db0 (some "u2") "b1" = .found storedBuyer hist := by
  refine ⟨(ownership_checks db0 "u2" "b1" sameBody 3000 "h1" storedBuyer).1
      (by decide) (by decide) (by decide),
    (ownership_checks db0 "u2" "b1" sameBody 3000 "h1" storedBuyer).2.1
      (by decide) (by decide),
    (ownership_checks db0 "u2" "b1" sameBody 3000 "h1" storedBuyer).2.2 (by decide)⟩

/-- C5 counterexample: the stored fixture buyer has a null email; a PUT
by the owner that resubmits every stored value but writes the empty
string in the email field leaves the stored row unchanged apart from
updatedAt (the handler normalizes the empty string back to null before
writing), yet one new history entry is recorded, carrying the
pseudo-change of email from null to the empty string — where the claim
requires zero entries when no field actually changed. -/
theorem update_without_change_still_writes_history :
    putHandler db0 (some "u1") "b1" { sameBody with email := some "" } 3000 "h1"
      = (.ok { storedBuyer with updatedAt := 3000 },
          ⟨[{ storedBuyer with updatedAt := 3000 }],
            [⟨"h1", "b1", "u1", 3000, [⟨"email", .null, .str ""⟩]⟩]⟩) := by
  decide

/-- C5 (amended): creating a buyer always writes exactly one history
entry whose diff holds the single key created; a successful owner update
writes exactly one entry when the computed diff is nonempty and zero
entries when it is empty, the diff comparing the validated request values
against the stored values (arrays by serialized equality, the empty
string compared before the null normalization of email and notes, so a
pseudo-change can be recorded); the fixture update changing only the
status from New to Qualified yields exactly one entry with exactly that
diff. -/
theorem history_write_shape (db : DB) (uid newId histId buyerId : String)
    (cb : CreateBody) (body : UpdateBody) (now : Int) (cur : Buyer) :
    (createBuyerIssues cb = [] →
        (createHandler db (some uid) cb newId histId now).2.history
            = db.history ++ [createHistoryEntry histId newId uid now]
          ∧ (createHistoryEntry histId newId uid now).diff
              = [⟨"created", .null, .str "Lead created"⟩])
    ∧ (updateBuyerIssues body = [] → findBuyer db buyerId = some cur → cur.ownerId = uid →
        (putHandler db (some uid) buyerId body now histId).2.history
          = db.history ++ (if computeDiff (parseUpdateData body) cur = [] then [] else
              [⟨histId, buyerId, uid, now, computeDiff (parseUpdateData body) cur⟩]))
    ∧ (putHandler db0 (some "u1") "b1" statusBody 3000 "h1").2.history
        = [⟨"h1", "b1", "u1", 3000, [⟨"status", .str "New", .str "Qualified"⟩]⟩] := by
  refine ⟨?_, ?_, by decide⟩
  · intro hv
    exact ⟨by simp [createHandler, hv, applyStatements, createStatements], rfl⟩
  · intro hv hfind howner
    rw [putHandler_success hv hfind howner]
    simpa using putStatements_history buyerId uid histId (parseUpdateData body) cur now db

/-- Witness for C5: the create shape at the valid fixture body, and the
update shape at the no-change fixture body. -/
theorem history_write_shape_witness :
    ((createHandler db0 (some "u1") okCreate "b2" "h2" 5000).2.history
        = db0.history ++ [createHistoryEntry "h2" "b2" "u1" 5000])
    ∧ ((putHandler db0 (some "u1") "b1" sameBody 3000 "h1").2.history
        = db0.history
            ++ (if computeDiff (parseUpdateData sameBody) storedBuyer = [] then [] else
                [⟨"h1", "b1", "u1", 3000, computeDiff (parseUpdateData sameBody) storedBuyer⟩])) := by
  refine ⟨((history_write_shape db0 "u1" "b2" "h2" "b1" okCreate sameBody 5000 storedBuyer).1
      (by decide)).1, ?_⟩
  exact (history_write_shape db0 "u1" "b2" "h1" "b1" okCreate sameBody 3000 storedBuyer).2.1
    (by decide) (by decide) (by decide)

/-- Every error entry of one failing row reports that row number. -/
theorem rowErrors_row {e : CsvError} {raw : RawCsvRow} {t : CsvRow} {n : Nat}
    (h : e ∈ rowErrors raw t n) : e.row = n := by
  simp only [rowErrors, List.mem_map] at h
  obtain ⟨iss, _, rfl⟩ := h
  rfl

/-- The per-row loop stages one buyer per valid row, emits one error
entry per validation issue of each failing row, and reports row numbers
from the counter plus 2 up to the counter plus the row count plus 1. -/
theorem processRows_spec (ownerId : String) (uuidGen : Nat → String) (now : Int) :
    ∀ (rows : List RawCsvRow) (i : Nat),
      (processRows ownerId uuidGen now i rows).1.length
          = (rows.filter (fun r => csvBuyerIssues (transformRow r) = [])).length
        ∧ (processRows ownerId uuidGen now i rows).2.length
            = (rows.map (fun r => (csvBuyerIssues (transformRow r)).length)).sum
        ∧ ∀ e ∈ (processRows ownerId uuidGen now i rows).2,
            i + 2 ≤ e.row ∧ e.row ≤ i + rows.length + 1 := by
  intro rows
  induction rows with
  | nil =>
      intro i
      exact ⟨rfl, rfl, by simp [processRows]⟩
  | cons raw rest ih =>
      intro i
      obtain ⟨ih1, ih2, ih3⟩ := ih (i + 1)
      by_cases h : csvBuyerIssues (transformRow raw) = []
      · refine ⟨?_, ?_, ?_⟩
        · simp [processRows, h, ih1]
        · simp [processRows, h, ih2]
        · intro e he
          simp only [processRows, h, if_pos] at he
          have hb := ih3 e (by simpa using he)
          simp only [List.length_cons]
          omega
      · refine ⟨?_, ?_, ?_⟩
        · simp [processRows, h, ih1]
        · simp [processRows, h, ih2, rowErrors]
        · intro e he
          simp only [processRows, h, if_neg] at he
          rcases List.mem_append.mp (by simpa using he) with hl | hr
          · have := rowErrors_row hl
            simp only [List.length_cons]
            omega
          · have hb := ih3 e hr
            simp only [List.length_cons]
            omega

/-- C4 (amended): a CSV with more than 200 data rows is rejected with the
row-count error, and a CSV missing a required header is rejected with the
missing-headers error, both before any row is validated or staged; in a
file passing both guards every data row is validated independently, a
failing row is excluded from staging, each validation issue of a failing
row contributes one error entry (so a row can contribute several entries,
also for one field), the first data row is reported as row 2, and the
response reports totalRows as the data row count, validRows as the staged
count, and errorRows as the number of error entries, which equals the
total issue count rather than the number of excluded rows; the 5-row
fixture file whose third row has a malformed phone with a single
violation reports totalRows 5, validRows 4, errorRows 1. -/
theorem csv_import_spec :
    (∀ (db : DB) (uid : String) (headers : List String) (rows : List RawCsvRow)
        (g1 g2 : Nat → String) (now : Int), rows.length > 200 →
        importHandler db (some uid) headers rows g1 g2 now = (.tooManyRows, db))
    ∧ (∀ (db : DB) (uid : String) (headers : List String) (rows : List RawCsvRow)
        (g1 g2 : Nat → String) (now : Int), rows.length ≠ 0 → rows.length ≤ 200 →
        expectedHeaders.filter (fun h => h ∉ headers) ≠ [] →
        importHandler db (some uid) headers rows g1 g2 now
          = (.missingHeaders (expectedHeaders.filter (fun h => h ∉ headers)), db))
    ∧ (∀ (db : DB) (uid : String) (headers : List String) (rows : List RawCsvRow)
        (g1 g2 : Nat → String) (now : Int), rows.length ≠ 0 → rows.length ≤ 200 →
        expectedHeaders.filter (fun h => h ∉ headers) = [] →
        ∃ s db2, importHandler db (some uid) headers rows g1 g2 now = (.imported s, db2)
          ∧ s.totalRows = rows.length
          ∧ s.validRows = (rows.filter (fun r => csvBuyerIssues (transformRow r) = [])).length
          ∧ s.errorRows = (rows.map (fun r => (csvBuyerIssues (transformRow r)).length)).sum
          ∧ s.errorRows = s.errors.length
          ∧ ∀ e ∈ s.errors, 2 ≤ e.row ∧ e.row ≤ rows.length + 1)
    ∧ (importHandler ⟨[], []⟩ (some "u1") expectedHeaders
          [okRaw, okRaw, { okRaw with phone := some "12345abcde" }, okRaw, okRaw]
          (fun _ => "x") (fun _ => "y") 0).1
        = .imported ⟨5, 4, 1,
            [⟨4, "phone", "Phone must be 10-15 digits", "12345abcde"⟩],
            ["x", "x", "x", "x"]⟩ := by
  refine ⟨?_, ?_, ?_, by decide⟩
  · intro db uid headers rows g1 g2 now hgt
    have h0 : ¬ rows.length = 0 := by omega
    simp only [importHandler]
    rw [if_neg h0, if_pos hgt]
  · intro db uid headers rows g1 g2 now h0 hle hmiss
    have hle' : ¬ rows.length > 200 := by omega
    simp only [importHandler]
    rw [if_neg h0, if_neg hle', if_pos hmiss]
  · intro db uid headers rows g1 g2 now h0 hle hmiss
    have hle' : ¬ rows.length > 200 := by omega
    have hmiss2 : ¬ (expectedHeaders.filter (fun h => h ∉ headers) ≠ []) :=
      fun hc => hc hmiss
    have heq : importHandler db (some uid) headers rows g1 g2 now
        = (.imported
            ⟨rows.length, (processRows uid g1 now 0 rows).1.length,
              (processRows uid g1 now 0 rows).2.length, (processRows uid g1 now 0 rows).2,
              (processRows uid g1 now 0 rows).1.map (fun b => b.id)⟩,
          applyStatements (importStatements (processRows uid g1 now 0 rows).1 g2 uid now) db) := by
      simp only [importHandler]
      rw [if_neg h0, if_neg hle', if_neg hmiss2]
    obtain ⟨sp1, sp2, sp3⟩ := processRows_spec uid g1 now rows 0
    refine ⟨_, _, heq, rfl, sp1, sp2, rfl, ?_⟩
    intro e he
    have hb := sp3 e he
    omega

/-- C4 counterexample: a one-row CSV whose phone cell is 12 violates two
checks of the one phone field (the digit-count regex and the minimum
length), so the response carries errorRows 2 with two error entries both
naming the phone field, although exactly one data row was excluded
(totalRows 1, validRows 0) — the claim predicts one entry per violated
field and errorRows 1. -/
theorem csv_import_error_rows_count_issues :
    (importHandler ⟨[], []⟩ (some "u1") expectedHeaders [{ okRaw with phone := some "12" }]
        (fun _ => "x") (fun _ => "y") 0).1
      = .imported ⟨1, 0, 2,
          [⟨2, "phone", "Phone must be 10-15 digits", "12"⟩,
           ⟨2, "phone", "Phone must be at least 10 digits", "12"⟩], []⟩ := by
  decide

/-- Witness for C4: the guards fire on a 201-row file and on a file
missing the phone header, and a singleton valid file is imported with one
staged row and no error. -/
theorem csv_import_spec_witness :
    importHandler ⟨[], []⟩ (some "u1") expectedHeaders (List.replicate 201 okRaw)
        (fun _ => "x") (fun _ => "y") 0 = (.tooManyRows, ⟨[], []⟩)
    ∧ importHandler ⟨[], []⟩ (some "u1")
        (expectedHeaders.filter (fun h => h ≠ "phone")) [okRaw]
        (fun _ => "x") (fun _ => "y") 0
        = (.missingHeaders
            (expectedHeaders.filter
              (fun h => h ∉ expectedHeaders.filter (fun h => h ≠ "phone"))), ⟨[], []⟩)
    ∧ ∃ s db2, importHandler ⟨[], []⟩ (some "u1") expectedHeaders [okRaw]
          (fun _ => "x") (fun _ => "y") 0 = (.imported s, db2)
        ∧ s.totalRows = 1 ∧ s.validRows = 1 ∧ s.errorRows = 0 := by
  refine ⟨csv_import_spec.1 ⟨[], []⟩ "u1" expectedHeaders (List.replicate 201 okRaw)
      (fun _ => "x") (fun _ => "y") 0 (by rw [List.length_replicate]; omega),
    csv_import_spec.2.1 ⟨[], []⟩ "u1" (expectedHeaders.filter (fun h => h ≠ "phone")) [okRaw]
      (fun _ => "x") (fun _ => "y") 0 (by decide) (by decide) (by decide), ?_⟩
  obtain ⟨s, db2, heq, h1, h2, h3, _, _⟩ :=
    csv_import_spec.2.2.1 ⟨[], []⟩ "u1" expectedHeaders [okRaw]
      (fun _ => "x") (fun _ => "y") 0 (by decide) (by decide) (by decide)
  exact ⟨s, db2, heq, by simp [h1], by simp [h2]; decide, by simp [h3]; decide⟩

/-- A conditional singleton issue list is empty only when the condition
holds. -/
theorem ite_nil_cond {c : Prop} [Decidable c] {x : Issue}
    (h : (if c then [] else [x]) = ([] : List Issue)) : c := by
  by_contra hc
  rw [if_neg hc] at h
  exact absurd h (by simp)

/-- An empty issue list for a present budget bound means the bound is an
integer-valued positive rational. -/
theorem budgetFieldIssues_nil {f : String} {q : Rat}
    (h : budgetFieldIssues f (some q) = []) : q.den = 1 ∧ 0 < q := by
  simp only [budgetFieldIssues, List.append_eq_nil] at h
  exact ⟨ite_nil_cond h.1, ite_nil_cond h.2⟩

/-- The range issue never comes from the bhk refinement. -/
theorem range_issue_not_bhk (pt : String) (pres : Bool) :
    (⟨"budgetMax", "Budget max must be greater than or equal to budget min"⟩ : Issue)
      ∉ bhkRefineIssues pt pres := by
  unfold bhkRefineIssues
  split
  · simp
  · simp

/-- C9 counterexample: both budget bounds are validated with the zod
positive check, which rejects 0, so 0 is not a valid value for either
bound — the otherwise-valid fixture body with budgetMin 0 (or budgetMax
0) fails with the greater-than-zero error on that field rather than
being accepted. -/
theorem budget_zero_rejected :
    createBuyerIssues { okCreate with budgetMin := some 0, budgetMax := none }
        = [⟨"budgetMin", "Number must be greater than 0"⟩]
    ∧ createBuyerIssues { okCreate with budgetMin := none, budgetMax := some 0 }
        = [⟨"budgetMax", "Number must be greater than 0"⟩] := by
  decide

/-- C9 (amended): the create schema takes budgetMin and budgetMax as
optional strictly positive integers — a present non-positive bound puts
the greater-than-zero error on that field — and, on a body whose base
fields all validate with both bounds present, the range error is reported
on the budgetMax field exactly when budgetMax is less than budgetMin; the
body with bounds 7000000 and 5000000 is rejected with only that range
error on budgetMax, and the body with bounds 5000000 and 7000000 is
accepted. -/
theorem budget_validation_spec (b : CreateBody) (qm qx : Rat) :
    (b.budgetMin = some qm → qm ≤ 0 →
        ⟨"budgetMin", "Number must be greater than 0"⟩ ∈ createBuyerIssues b)
    ∧ (b.budgetMax = some qx → qx ≤ 0 →
        ⟨"budgetMax", "Number must be greater than 0"⟩ ∈ createBuyerIssues b)
    ∧ (createBuyerBaseIssues b = [] → b.budgetMin = some qm → b.budgetMax = some qx →
        ((⟨"budgetMax", "Budget max must be greater than or equal to budget min"⟩ : Issue)
            ∈ createBuyerIssues b ↔ qx.num < qm.num))
    ∧ createBuyerIssues { okCreate with budgetMin := some 7000000, budgetMax := some 5000000 }
        = [⟨"budgetMax", "Budget max must be greater than or equal to budget min"⟩]
    ∧ createBuyerIssues { okCreate with budgetMin := some 5000000, budgetMax := some 7000000 }
        = [] := by
  refine ⟨?_, ?_, ?_, by decide, by decide⟩
  · intro hmin hq
    have hmem : (⟨"budgetMin", "Number must be greater than 0"⟩ : Issue)
        ∈ budgetFieldIssues "budgetMin" b.budgetMin := by
      rw [hmin]
      simp only [budgetFieldIssues]
      refine List.mem_append.mpr (Or.inr ?_)
      rw [if_neg (not_lt.mpr hq)]
      exact List.mem_singleton.mpr rfl
    have hiss : (⟨"budgetMin", "Number must be greater than 0"⟩ : Issue)
        ∈ createBuyerBaseIssues b := by
      simp only [createBuyerBaseIssues, List.mem_append]
      tauto
    have hbne : createBuyerBaseIssues b ≠ [] := by
      intro h0
      rw [h0] at hiss
      exact absurd hiss (List.not_mem_nil _)
    simp only [createBuyerIssues]
    rw [if_neg hbne]
    exact hiss
  · intro hmax hq
    have hmem : (⟨"budgetMax", "Number must be greater than 0"⟩ : Issue)
        ∈ budgetFieldIssues "budgetMax" b.budgetMax := by
      rw [hmax]
      simp only [budgetFieldIssues]
      refine List.mem_append.mpr (Or.inr ?_)
      rw [if_neg (not_lt.mpr hq)]
      exact List.mem_singleton.mpr rfl
    have hiss : (⟨"budgetMax", "Number must be greater than 0"⟩ : Issue)
        ∈ createBuyerBaseIssues b := by
      simp only [createBuyerBaseIssues, List.mem_append]
      tauto
    have hbne : createBuyerBaseIssues b ≠ [] := by
      intro h0
      rw [h0] at hiss
      exact absurd hiss (List.not_mem_nil _)
    simp only [createBuyerIssues]
    rw [if_neg hbne]
    exact hiss
  · intro hbase hmin hmax
    have hbase' := hbase
    simp only [createBuyerBaseIssues, List.append_eq_nil] at hbase'
    obtain ⟨⟨⟨⟨⟨⟨⟨⟨⟨⟨⟨⟨h1, h2⟩, h3⟩, h4⟩, h5⟩, h6⟩, h7⟩, h8⟩, hbm⟩, hbx⟩, h11⟩, h12⟩, h13⟩ :=
      hbase'
    rw [hmin] at hbm
    rw [hmax] at hbx
    obtain ⟨hdm, hpm⟩ := budgetFieldIssues_nil hbm
    obtain ⟨hdx, hpx⟩ := budgetFieldIssues_nil hbx
    have hnm : qm.num ≠ 0 := by
      have := Rat.num_pos.mpr hpm
      omega
    have hnx : qx.num ≠ 0 := by
      have := Rat.num_pos.mpr hpx
      omega
    have hci : createBuyerIssues b
        = bhkRefineIssues b.propertyType
            (match b.bhk with | some _ => true | none => false)
          ++ budgetRefineIssues (ratBudgetToInt b.budgetMin) (ratBudgetToInt b.budgetMax) := by
      simp only [createBuyerIssues]
      rw [hbase, if_pos rfl]
    rw [hci, hmin, hmax]
    constructor
    · intro hmem
      rcases List.mem_append.mp hmem with hl | hr
      · exact absurd hl (range_issue_not_bhk _ _)
      · by_cases hge : qx.num ≥ qm.num
        · exfalso
          simp [budgetRefineIssues, ratBudgetToInt, jsTruthyInt, hnm, hnx, hge] at hr
        · omega
    · intro hlt
      refine List.mem_append.mpr (Or.inr ?_)
      simp [budgetRefineIssues, ratBudgetToInt, jsTruthyInt, hnm, hnx,
        (by omega : ¬ qx.num ≥ qm.num)]
      omega

/-- Witness for C9: the positivity clause at the zero-budget body and the
range clause at the 7000000 and 5000000 body, where the inequality is
decided concretely. -/
theorem budget_validation_spec_witness :
    (⟨"budgetMin", "Number must be greater than 0"⟩ : Issue)
        ∈ createBuyerIssues { okCreate with budgetMin := some 0, budgetMax := none }
    ∧ ((⟨"budgetMax", "Budget max must be greater than or equal to budget min"⟩ : Issue)
        ∈ createBuyerIssues { okCreate with budgetMin := some 7000000, budgetMax := some 5000000 }
        ↔ (5000000 : Rat).num < (7000000 : Rat).num) := by
  refine ⟨(budget_validation_spec
      { okCreate with budgetMin := some 0, budgetMax := none } 0 0).1 rfl (by decide), ?_⟩
  exact (budget_validation_spec
      { okCreate with budgetMin := some 7000000, budgetMax := some 5000000 }
      7000000 5000000).2.2.1 (by decide) rfl rfl

end ESahayak
